import Mathlib

/-!
Verification of the FashionChat conversational frontend core.

The definitions below are a shallow embedding of the `useChat` React hook
(`sendMessage`, `loadChatHistory`, `clearChat`), the `ChatMessage` display
component (attachment truncation), and the shared type declarations
(`ChatMessage`, `ChatResponse`, `Product`).  React state updates become
explicit state passing on a `ChatState` record; the awaited API call becomes
an `Except` parameter standing for the resolved or rejected promise;
JavaScript truthiness tests on optional strings are made explicit.
-/

namespace FashionChat

/-- Message role: the `type` field of the TS `ChatMessage` interface,
with values `'user' | 'assistant'`. -/
inductive MsgType where
  | user
  | assistant
deriving DecidableEq, Repr

/-- Product record, from the `Product` interface in the frontend types.
Numeric fields are modelled as `Int`; the `any`-typed `tags` field is
modelled as opaque text. -/
structure Product where
  id : Nat
  name : String
  description : String
  price : Int
  category : String
  color : Option String
  size : Option String
  brand : Option String
  image_url : Option String
  stock_quantity : Nat
  tags : Option String
  created_at : String
deriving DecidableEq, Repr

/-- Order record: the fields the `ChatMessage` component reads from the
`any`-typed order objects (`id`, `order_number`, `status`, `total_amount`,
`created_at`). -/
structure Order where
  id : Nat
  order_number : String
  status : String
  total_amount : Int
  created_at : String
deriving DecidableEq, Repr

/-- The `ChatMessage` interface: `type`, `content`, `timestamp`, with
optional `intent`, `products` and `orders`. -/
structure ChatMessage where
  type : MsgType
  content : String
  timestamp : String
  intent : Option String
  products : Option (List Product)
  orders : Option (List Order)
deriving DecidableEq, Repr

/-- The `ChatResponse` interface: `response`, `intent`, `session_id`,
optional `products` and `orders`. -/
structure ChatResponse where
  response : String
  intent : String
  session_id : String
  products : Option (List Product)
  orders : Option (List Order)
deriving DecidableEq, Repr

/-- The rejection value of the API promise, as the error handler reads it:
`error.response?.data?.detail` is an optional string (absence of any link
in the optional chain collapses to `none`). -/
structure ApiError where
  detail : Option String
deriving DecidableEq, Repr

/-- The React state of the `useChat` hook: the `messages`, `isLoading`
and `sessionId` state variables. -/
structure ChatState where
  messages : List ChatMessage
  isLoading : Bool
  sessionId : Option String
deriving DecidableEq, Repr

/-- JavaScript `String.prototype.trim()`: remove leading and trailing
whitespace.  Modelled directly on the character sequence so that the
kernel can evaluate it on concrete strings. -/
def jsTrim (s : String) : String :=
  ⟨((s.data.dropWhile Char.isWhitespace).reverse.dropWhile Char.isWhitespace).reverse⟩

/-- JavaScript truthiness test for a nullable string: `!s` is true for
`null` and for the empty string. -/
def jsFalsyStr : Option String → Bool
  | none => true
  | some s => s.isEmpty

/-- The JavaScript `||` default on an optional string, as in
`error.response?.data?.detail || fallback`: a missing or empty (falsy)
string falls through to the fallback. -/
def jsOrStr (a : Option String) (fallback : String) : String :=
  match a with
  | none => fallback
  | some s => if s.isEmpty then fallback else s

/-- The fixed apology text of the `sendMessage` error handler. -/
def apologyText : String :=
  "I apologize, but I encountered an error processing your message. Please try again."

/-- The `userMessage` object built by `sendMessage`: type `'user'`,
trimmed content, fresh timestamp, no intent, no attachments. -/
def userMessage (message now : String) : ChatMessage :=
  { type := .user
    content := jsTrim message
    timestamp := now
    intent := none
    products := none
    orders := none }

/-- The `assistantMessage` object built on API success: type
`'assistant'`, the response text, the response intent, and the
response attachments copied verbatim. -/
def assistantMessage (response : ChatResponse) (now : String) : ChatMessage :=
  { type := .assistant
    content := response.response
    timestamp := now
    intent := some response.intent
    products := response.products
    orders := response.orders }

/-- The `errorMessage` object built by the `catch` handler: type
`'assistant'`, the server detail or the apology text, intent `'error'`,
no attachments. -/
def errorMessage (e : ApiError) (now : String) : ChatMessage :=
  { type := .assistant
    content := jsOrStr e.detail apologyText
    timestamp := now
    intent := some "error"
    products := none
    orders := none }

/-- Result of one `sendMessage` invocation: the final hook state, and the
`(message, session_id)` arguments passed to `ApiService.sendMessage`
(`none` when the early return fired and no API call was issued). -/
structure SendResult where
  state : ChatState
  sent : Option (String × Option String)
deriving DecidableEq, Repr

/-- `sendMessage` of the `useChat` hook.  `now` and `now2` stand for the
two `new Date().toISOString()` stamps; `api` is the settled promise of
`ApiService.sendMessage(message.trim(), sessionId)`.

Control flow of the source: guard `!message.trim() || isLoading`; append
the user message and set `isLoading`; on success adopt the echoed
`session_id` when the current one is falsy and append the assistant
message; on rejection append the error message; `finally` clears
`isLoading`. -/
def sendMessage (st : ChatState) (message : String) (now now2 : String)
    (api : Except ApiError ChatResponse) : SendResult :=
  if (jsTrim message).isEmpty || st.isLoading then
    { state := st, sent := none }
  else
    let afterUser : ChatState :=
      { st with messages := st.messages ++ [userMessage message now], isLoading := true }
    match api with
    | .ok response =>
        let newSessionId : Option String :=
          if jsFalsyStr st.sessionId && !response.session_id.isEmpty then
            some response.session_id
          else
            st.sessionId
        { state :=
            { afterUser with
              messages := afterUser.messages ++ [assistantMessage response now2]
              sessionId := newSessionId
              isLoading := false }
          sent := some (jsTrim message, st.sessionId) }
    | .error e =>
        { state :=
            { afterUser with
              messages := afterUser.messages ++ [errorMessage e now2]
              isLoading := false }
          sent := some (jsTrim message, st.sessionId) }

/-- A stored message as returned by `ApiService.getChatHistory`: the
history entries are `any`-typed; the fields the hook reads are `type`,
`content`, `timestamp`, `intent`, and a stored entry may additionally
carry attachments. -/
structure StoredMessage where
  type : MsgType
  content : String
  timestamp : String
  intent : Option String
  products : Option (List Product)
  orders : Option (List Order)
deriving DecidableEq, Repr

/-- The per-entry mapping of `loadChatHistory`: keep `type`, `content`,
`timestamp`, `intent`; attachments are not copied. -/
def formatMessage (msg : StoredMessage) : ChatMessage :=
  { type := msg.type
    content := msg.content
    timestamp := msg.timestamp
    intent := msg.intent
    products := none
    orders := none }

/-- `loadChatHistory` of the `useChat` hook: early return on a falsy
`sessionId`; on success replace the message log with the formatted
history; on failure only log, leaving the state unchanged. -/
def loadChatHistory (st : ChatState)
    (api : Except ApiError (List StoredMessage)) : ChatState :=
  if jsFalsyStr st.sessionId then st
  else
    match api with
    | .ok history => { st with messages := history.map formatMessage }
    | .error _ => st

/-- `clearChat` of the `useChat` hook. -/
def clearChat (_st : ChatState) : ChatState :=
  { messages := [], isLoading := false, sessionId := none }

/-- Products rendered by the `ChatMessage` component: the block is shown
only when `message.products && message.products.length > 0`, and maps over
`message.products.slice(0, 3)`. -/
def displayedProducts (m : ChatMessage) : List Product :=
  match m.products with
  | none => []
  | some ps => if ps.length > 0 then ps.take 3 else []

/-- Orders rendered by the `ChatMessage` component: shown only when
`message.orders && message.orders.length > 0`, mapping over
`message.orders.slice(0, 2)`. -/
def displayedOrders (m : ChatMessage) : List Order :=
  match m.orders with
  | none => []
  | some os => if os.length > 0 then os.take 2 else []

/-- Modelled from the spec: the closed intent enumeration of the data
model, with values product_search, order_inquiry, general, error.  The
backend classifier and dispatcher are not part of the frontend sources. -/
inductive Intent where
  | product_search
  | order_inquiry
  | general
  | error
deriving DecidableEq, Repr

/-- The wire label of an intent value. -/
def Intent.label : Intent → String
  | .product_search => "product_search"
  | .order_inquiry => "order_inquiry"
  | .general => "general"
  | .error => "error"

/-- Modelled from the spec: the Capability Result tagged union returned
by a Capability Provider — Text, Products, Orders, or Failure. -/
inductive CapabilityResult where
  | text (s : String)
  | products (ps : List Product)
  | orders (os : List Order)
  | failure (reason : String)
deriving DecidableEq, Repr

/-- Modelled from the spec: the backend Response Assembler and the
Dispatcher's failure handling, which produce the `ChatResponse` envelope;
this backend code is not among the frontend sources.  A Products result
attaches the product list truncated to 3, an Orders result the order list
truncated to 2, a Text result only text, and a Failure is converted to an
apologetic text response with intent forced to error; the text field is
always populated. -/
def assembleResponse (intent : Intent) (result : CapabilityResult)
    (sid : String) : ChatResponse :=
  match result with
  | .text s =>
      { response := s, intent := intent.label, session_id := sid
        products := none, orders := none }
  | .products ps =>
      { response := "Here are some items you might like"
        intent := intent.label, session_id := sid
        products := some (ps.take 3), orders := none }
  | .orders os =>
      { response := "Here is what I found about your orders"
        intent := intent.label, session_id := sid
        products := none, orders := some (os.take 2) }
  | .failure _ =>
      { response := "I'm sorry, I couldn't process that request right now."
        intent := Intent.error.label, session_id := sid
        products := none, orders := none }

/-- An optional list that is present and non-empty. -/
def someNonEmpty : Option (List α) → Bool
  | some (_ :: _) => true
  | _ => false

/-- Membership of a string in the closed intent enumeration. -/
def intentOk (s : String) : Bool :=
  s == "product_search" || s == "order_inquiry" || s == "general" || s == "error"

/-- A message whose intent field is well-formed: an assistant message
carries a present intent drawn from the closed enumeration. -/
def msgIntentOk (m : ChatMessage) : Bool :=
  match m.type with
  | .user => true
  | .assistant =>
      match m.intent with
      | some v => intentOk v
      | none => false

/-- A stored history entry whose intent field is well-formed: a stored
assistant message carries a present intent from the closed enumeration. -/
def storedIntentOk (sm : StoredMessage) : Bool :=
  match sm.type with
  | .user => true
  | .assistant =>
      match sm.intent with
      | some v => intentOk v
      | none => false

/-- A concrete product value for use in witnesses. -/
def sampleProduct (n : Nat) : Product :=
  { id := n, name := "item", description := "d", price := 10, category := "c"
    color := none, size := none, brand := none, image_url := none
    stock_quantity := 1, tags := none, created_at := "t" }

/-- A concrete order value for use in witnesses. -/
def sampleOrder (n : Nat) : Order :=
  { id := n, order_number := "o", status := "shipped", total_amount := 5
    created_at := "t" }

/-- A concrete assistant message with five products and three orders. -/
def sampleMsg : ChatMessage :=
  { type := .assistant, content := "c", timestamp := "t"
    intent := some "general"
    products := some [sampleProduct 1, sampleProduct 2, sampleProduct 3,
      sampleProduct 4, sampleProduct 5]
    orders := some [sampleOrder 1, sampleOrder 2, sampleOrder 3] }

/-- Claim C1: for every `sendMessage` invocation with a message whose
trimmed content is non-empty while no request is in flight, the log after
the call is the old log with exactly two messages appended: the user
message carrying the trimmed content, immediately followed by exactly one
assistant message, whether the API call succeeds or fails. -/
theorem sendMessage_appends_user_assistant_pair (st : ChatState)
    (message now now2 : String) (api : Except ApiError ChatResponse)
    (hmsg : (jsTrim message).isEmpty = false) (hload : st.isLoading = false) :
    ∃ a : ChatMessage, a.type = .assistant ∧
      (sendMessage st message now now2 api).state.messages
        = st.messages ++ [userMessage message now, a] ∧
      (userMessage message now).type = .user ∧
      (userMessage message now).content = jsTrim message := by
  cases api with
  | ok r =>
      refine ⟨assistantMessage r now2, rfl, ?_, rfl, rfl⟩
      simp [sendMessage, hmsg, hload]
  | error e =>
      refine ⟨errorMessage e now2, rfl, ?_, rfl, rfl⟩
      simp [sendMessage, hmsg, hload]

/-- Witness for C1: a concrete invocation satisfying both hypotheses. -/
theorem sendMessage_appends_user_assistant_pair_witness :
    (jsTrim "hello").isEmpty = false ∧
    (∃ a : ChatMessage, a.type = .assistant ∧
      (sendMessage ⟨[], false, none⟩ "hello" "t0" "t1"
          (.error ⟨none⟩)).state.messages
        = [] ++ [userMessage "hello" "t0", a] ∧
      (userMessage "hello" "t0").type = .user ∧
      (userMessage "hello" "t0").content = jsTrim "hello") :=
  ⟨by decide,
   sendMessage_appends_user_assistant_pair ⟨[], false, none⟩ "hello" "t0" "t1"
     (.error ⟨none⟩) (by decide) rfl⟩

/-- Claim C2: when the API call rejects, the assistant message appended by
the error handler has intent error, non-empty content (the server detail
or the fixed apology string), and no products and no orders attachments. -/
theorem error_reply_has_error_intent_and_text (st : ChatState)
    (message now now2 : String) (e : ApiError)
    (hmsg : (jsTrim message).isEmpty = false) (hload : st.isLoading = false) :
    (sendMessage st message now now2 (.error e)).state.messages
      = st.messages ++ [userMessage message now, errorMessage e now2] ∧
    (errorMessage e now2).intent = some "error" ∧
    (errorMessage e now2).content.isEmpty = false ∧
    (errorMessage e now2).products = none ∧
    (errorMessage e now2).orders = none := by
  refine ⟨by simp [sendMessage, hmsg, hload], rfl, ?_, rfl, rfl⟩
  show (jsOrStr e.detail apologyText).isEmpty = false
  cases h : e.detail with
  | none =>
      simp only [jsOrStr]
      decide
  | some s =>
      cases hs : s.isEmpty with
      | true =>
          simp only [jsOrStr, hs, if_true]
          decide
      | false => simp [jsOrStr, hs]

/-- Witness for C2: a concrete failing invocation with an empty server
detail, forcing the apology fallback. -/
theorem error_reply_has_error_intent_and_text_witness :
    (jsTrim "hi").isEmpty = false ∧
    ((sendMessage ⟨[], false, some "s1"⟩ "hi" "t0" "t1"
        (.error ⟨some ""⟩)).state.messages
      = [] ++ [userMessage "hi" "t0", errorMessage ⟨some ""⟩ "t1"] ∧
    (errorMessage ⟨some ""⟩ "t1").intent = some "error" ∧
    (errorMessage ⟨some ""⟩ "t1").content.isEmpty = false ∧
    (errorMessage ⟨some ""⟩ "t1").products = none ∧
    (errorMessage ⟨some ""⟩ "t1").orders = none) :=
  ⟨by decide,
   error_reply_has_error_intent_and_text ⟨[], false, some "s1"⟩ "hi" "t0" "t1"
     ⟨some ""⟩ (by decide) rfl⟩

/-- Claim C3: for every message, at most 3 product attachments and at
most 2 order attachments are presented, and when the message carries a
products (resp. orders) list the displayed items are exactly its first
min(n, 3) (resp. min(m, 2)) elements in order. -/
theorem displayed_attachments_truncated (m : ChatMessage) :
    (displayedProducts m).length ≤ 3 ∧ (displayedOrders m).length ≤ 2 ∧
    (∀ ps, m.products = some ps → displayedProducts m = ps.take 3) ∧
    (∀ os, m.orders = some os → displayedOrders m = os.take 2) := by
  refine ⟨?_, ?_, ?_, ?_⟩
  · cases hp : m.products with
    | none => simp [displayedProducts, hp]
    | some ps =>
        cases ps with
        | nil => simp [displayedProducts, hp]
        | cons p ps =>
            simp only [displayedProducts, hp]
            simp [List.length_take_le]
  · cases ho : m.orders with
    | none => simp [displayedOrders, ho]
    | some os =>
        cases os with
        | nil => simp [displayedOrders, ho]
        | cons o os =>
            simp only [displayedOrders, ho]
            simp [List.length_take_le]
  · intro ps hp
    cases ps with
    | nil => simp [displayedProducts, hp]
    | cons p ps => simp [displayedProducts, hp]
  · intro os ho
    cases os with
    | nil => simp [displayedOrders, ho]
    | cons o os => simp [displayedOrders, ho]

/-- Witness for C3: a concrete assistant message with five products and
three orders displays exactly the first three products and first two
orders. -/
theorem displayed_attachments_truncated_witness :
    ((displayedProducts sampleMsg).length ≤ 3 ∧
     (displayedOrders sampleMsg).length ≤ 2 ∧
     (∀ ps, sampleMsg.products = some ps → displayedProducts sampleMsg = ps.take 3) ∧
     (∀ os, sampleMsg.orders = some os → displayedOrders sampleMsg = os.take 2)) ∧
    displayedProducts sampleMsg = [sampleProduct 1, sampleProduct 2, sampleProduct 3] ∧
    displayedOrders sampleMsg = [sampleOrder 1, sampleOrder 2] :=
  ⟨displayed_attachments_truncated sampleMsg, by decide, by decide⟩

/-- The wire label of every intent value lies in the closed enumeration. -/
theorem intentOk_label (i : Intent) : intentOk i.label = true := by
  cases i <;> rfl

/-- The assistant message assembled from a backend envelope carries a
well-formed intent. -/
theorem msgIntentOk_assembled (i : Intent) (c : CapabilityResult)
    (sid now2 : String) :
    msgIntentOk (assistantMessage (assembleResponse i c sid) now2) = true := by
  cases c <;>
    simp [msgIntentOk, assistantMessage, assembleResponse, intentOk_label]

/-- The error handler's assistant message carries a well-formed intent. -/
theorem msgIntentOk_errorMessage (e : ApiError) (now2 : String) :
    msgIntentOk (errorMessage e now2) = true := by
  simp [msgIntentOk, errorMessage]
  rfl

/-- Formatting a stored entry preserves well-formedness of the intent. -/
theorem msgIntentOk_formatMessage (sm : StoredMessage) :
    msgIntentOk (formatMessage sm) = storedIntentOk sm := by
  rcases sm with ⟨t, c, ts, it, p, o⟩
  cases t <;> rfl

/-- Claim C4: an assistant message produced from a chat response copies
the envelope's attachments verbatim, and for every envelope built by the
backend assembler (modelled from the spec) the products and orders
attachments are mutually exclusive: never both present and non-empty. -/
theorem assistant_attachments_mutually_exclusive (st : ChatState)
    (message now now2 sid : String) (i : Intent) (c : CapabilityResult)
    (hmsg : (jsTrim message).isEmpty = false) (hload : st.isLoading = false) :
    (sendMessage st message now now2
        (.ok (assembleResponse i c sid))).state.messages
      = st.messages ++ [userMessage message now,
          assistantMessage (assembleResponse i c sid) now2] ∧
    (assistantMessage (assembleResponse i c sid) now2).type = .assistant ∧
    (someNonEmpty (assistantMessage (assembleResponse i c sid) now2).products
      && someNonEmpty (assistantMessage (assembleResponse i c sid) now2).orders)
      = false := by
  refine ⟨by simp [sendMessage, hmsg, hload], rfl, ?_⟩
  cases c <;> simp [assistantMessage, assembleResponse, someNonEmpty]

/-- Witness for C4: a concrete send whose envelope carries five product
references. -/
theorem assistant_attachments_mutually_exclusive_witness :
    (jsTrim "red dresses").isEmpty = false ∧
    ((sendMessage ⟨[], false, some "s1"⟩ "red dresses" "t0" "t1"
        (.ok (assembleResponse .product_search
          (.products [sampleProduct 1, sampleProduct 2, sampleProduct 3,
            sampleProduct 4, sampleProduct 5]) "s1"))).state.messages
      = [] ++ [userMessage "red dresses" "t0",
          assistantMessage (assembleResponse .product_search
            (.products [sampleProduct 1, sampleProduct 2, sampleProduct 3,
              sampleProduct 4, sampleProduct 5]) "s1") "t1"] ∧
    (assistantMessage (assembleResponse .product_search
        (.products [sampleProduct 1, sampleProduct 2, sampleProduct 3,
          sampleProduct 4, sampleProduct 5]) "s1") "t1").type = .assistant ∧
    (someNonEmpty (assistantMessage (assembleResponse .product_search
        (.products [sampleProduct 1, sampleProduct 2, sampleProduct 3,
          sampleProduct 4, sampleProduct 5]) "s1") "t1").products
      && someNonEmpty (assistantMessage (assembleResponse .product_search
        (.products [sampleProduct 1, sampleProduct 2, sampleProduct 3,
          sampleProduct 4, sampleProduct 5]) "s1") "t1").orders) = false) :=
  ⟨by decide,
   assistant_attachments_mutually_exclusive ⟨[], false, some "s1"⟩
     "red dresses" "t0" "t1" "s1" .product_search
     (.products [sampleProduct 1, sampleProduct 2, sampleProduct 3,
       sampleProduct 4, sampleProduct 5]) (by decide) rfl⟩

/-- Claim C5: every assistant message in the log has a present intent
drawn from the closed enumeration — whether appended by a successful send
of a backend-assembled envelope, appended by the error handler, or
restored by loadChatHistory from a well-formed server history. -/
theorem log_intents_enumerated (st : ChatState)
    (message now now2 sid : String) (i : Intent) (c : CapabilityResult)
    (e : ApiError) (hist : List StoredMessage)
    (hst : ∀ m ∈ st.messages, msgIntentOk m = true)
    (hhist : ∀ sm ∈ hist, storedIntentOk sm = true) :
    (∀ m ∈ (sendMessage st message now now2
        (.ok (assembleResponse i c sid))).state.messages,
      msgIntentOk m = true) ∧
    (∀ m ∈ (sendMessage st message now now2 (.error e)).state.messages,
      msgIntentOk m = true) ∧
    (∀ m ∈ (loadChatHistory st (.ok hist)).messages,
      msgIntentOk m = true) := by
  have huser : msgIntentOk (userMessage message now) = true := rfl
  refine ⟨?_, ?_, ?_⟩
  · intro m hm
    by_cases hg : ((jsTrim message).isEmpty || st.isLoading) = true
    · rw [sendMessage, if_pos hg] at hm
      exact hst m hm
    · simp only [sendMessage, if_neg hg] at hm
      simp at hm
      rcases hm with hm | hm | hm
      · exact hst m hm
      · rw [hm]; exact huser
      · rw [hm]; exact msgIntentOk_assembled i c sid now2
  · intro m hm
    by_cases hg : ((jsTrim message).isEmpty || st.isLoading) = true
    · rw [sendMessage, if_pos hg] at hm
      exact hst m hm
    · simp only [sendMessage, if_neg hg] at hm
      simp at hm
      rcases hm with hm | hm | hm
      · exact hst m hm
      · rw [hm]; exact huser
      · rw [hm]; exact msgIntentOk_errorMessage e now2
  · intro m hm
    by_cases hg : jsFalsyStr st.sessionId = true
    · rw [loadChatHistory, if_pos hg] at hm
      exact hst m hm
    · simp only [loadChatHistory, if_neg hg] at hm
      simp at hm
      obtain ⟨sm, hsm, rfl⟩ := hm
      rw [msgIntentOk_formatMessage]
      exact hhist sm hsm

/-- Witness for C5: an empty starting log and a one-entry well-formed
server history. -/
theorem log_intents_enumerated_witness :
    (∀ m ∈ ([] : List ChatMessage), msgIntentOk m = true) ∧
    (∀ sm ∈ [(⟨.assistant, "hello", "t", some "general", none, none⟩ :
        StoredMessage)], storedIntentOk sm = true) ∧
    ((∀ m ∈ (sendMessage ⟨[], false, none⟩ "hi" "t0" "t1"
        (.ok (assembleResponse .general (.text "ok") "s1"))).state.messages,
      msgIntentOk m = true) ∧
    (∀ m ∈ (sendMessage ⟨[], false, none⟩ "hi" "t0" "t1"
        (.error ⟨none⟩)).state.messages, msgIntentOk m = true) ∧
    (∀ m ∈ (loadChatHistory ⟨[], false, none⟩
        (.ok [⟨.assistant, "hello", "t", some "general", none, none⟩])).messages,
      msgIntentOk m = true)) :=
  ⟨by simp, by decide,
   log_intents_enumerated ⟨[], false, none⟩ "hi" "t0" "t1" "s1" .general
     (.text "ok") ⟨none⟩ [⟨.assistant, "hello", "t", some "general", none, none⟩]
     (by simp) (by decide)⟩

/-- Claim C6: while a request is in flight (`isLoading` true) a
`sendMessage` invocation issues no API call and changes neither the log,
the session id, nor the loading flag; and a dispatched request always
completes with `isLoading` reset to false, so a second request can only
be dispatched after the first has completed. -/
theorem loading_guard_at_most_one_in_flight (st : ChatState)
    (message now now2 : String) (api : Except ApiError ChatResponse) :
    (st.isLoading = true →
      (sendMessage st message now now2 api).state = st ∧
      (sendMessage st message now now2 api).sent = none) ∧
    (st.isLoading = false →
      (sendMessage st message now now2 api).state.isLoading = false) := by
  constructor
  · intro h
    constructor <;> simp [sendMessage, h]
  · intro h
    cases hm : (jsTrim message).isEmpty with
    | true => simp [sendMessage, hm, h]
    | false => cases api <;> simp [sendMessage, hm, h]

/-- Witness for C6: a guarded concrete call is a no-op with no API
arguments sent, and an unguarded concrete call ends not loading. -/
theorem loading_guard_at_most_one_in_flight_witness :
    (sendMessage ⟨[], true, none⟩ "hi" "t0" "t1" (.error ⟨none⟩)).state
      = ⟨[], true, none⟩ ∧
    (sendMessage ⟨[], true, none⟩ "hi" "t0" "t1" (.error ⟨none⟩)).sent = none ∧
    (sendMessage ⟨[], false, none⟩ "hi" "t0" "t1"
      (.error ⟨none⟩)).state.isLoading = false :=
  ⟨((loading_guard_at_most_one_in_flight ⟨[], true, none⟩ "hi" "t0" "t1"
      (.error ⟨none⟩)).1 rfl).1,
   ((loading_guard_at_most_one_in_flight ⟨[], true, none⟩ "hi" "t0" "t1"
      (.error ⟨none⟩)).1 rfl).2,
   (loading_guard_at_most_one_in_flight ⟨[], false, none⟩ "hi" "t0" "t1"
      (.error ⟨none⟩)).2 rfl⟩

/-- Claim C7: the session id is established from the first successful
response — a null `sessionId` adopts the echoed `session_id` — and is
thereafter stable: while `sessionId` is non-null that same id is the one
passed to the API whenever a call is issued, and the call leaves it
unchanged. -/
theorem session_id_established_then_stable (st : ChatState)
    (message now now2 s : String) (r : ChatResponse)
    (api : Except ApiError ChatResponse) :
    (st.sessionId = none → r.session_id.isEmpty = false →
      (jsTrim message).isEmpty = false → st.isLoading = false →
      (sendMessage st message now now2 (.ok r)).state.sessionId
        = some r.session_id) ∧
    (st.sessionId = some s → s.isEmpty = false →
      (sendMessage st message now now2 api).state.sessionId = some s ∧
      ((sendMessage st message now now2 api).sent = none ∨
       (sendMessage st message now now2 api).sent
         = some (jsTrim message, some s))) := by
  constructor
  · intro hs hr hm hl
    simp [sendMessage, hm, hl, jsFalsyStr, hs, hr]
  · intro hs hne
    by_cases hg : ((jsTrim message).isEmpty || st.isLoading) = true
    · refine ⟨?_, Or.inl ?_⟩
      · rw [sendMessage, if_pos hg]
        exact hs
      · rw [sendMessage, if_pos hg]
    · cases api with
      | ok r2 =>
          refine ⟨?_, Or.inr ?_⟩
          · simp [sendMessage, hg, jsFalsyStr, hs, hne]
          · simp [sendMessage, hg, hs]
      | error e =>
          refine ⟨?_, Or.inr ?_⟩
          · simp [sendMessage, hg, hs]
          · simp [sendMessage, hg, hs]

/-- Witness for C7: a first call from a null session adopts the echoed
id, and a later call from that session passes it unchanged. -/
theorem session_id_established_then_stable_witness :
    (sendMessage ⟨[], false, none⟩ "hi" "t0" "t1"
      (.ok ⟨"ok", "general", "s1", none, none⟩)).state.sessionId = some "s1" ∧
    ((sendMessage ⟨[], false, some "s1"⟩ "more" "t2" "t3"
        (.ok ⟨"ok", "general", "s1", none, none⟩)).state.sessionId = some "s1" ∧
     ((sendMessage ⟨[], false, some "s1"⟩ "more" "t2" "t3"
        (.ok ⟨"ok", "general", "s1", none, none⟩)).sent = none ∨
      (sendMessage ⟨[], false, some "s1"⟩ "more" "t2" "t3"
        (.ok ⟨"ok", "general", "s1", none, none⟩)).sent
        = some (jsTrim "more", some "s1"))) :=
  ⟨(session_id_established_then_stable ⟨[], false, none⟩ "hi" "t0" "t1" "s1"
      ⟨"ok", "general", "s1", none, none⟩
      (.ok ⟨"ok", "general", "s1", none, none⟩)).1 rfl (by decide)
      (by decide) rfl,
   (session_id_established_then_stable ⟨[], false, some "s1"⟩ "more" "t2" "t3"
      "s1" ⟨"ok", "general", "s1", none, none⟩
      (.ok ⟨"ok", "general", "s1", none, none⟩)).2 rfl (by decide)⟩

/-- Claim C8: every `sendMessage` invocation preserves the existing log
as an unchanged prefix — messages are only ever appended at the end. -/
theorem log_preserved_as_prefix (st : ChatState) (message now now2 : String)
    (api : Except ApiError ChatResponse) :
    ∃ tail, (sendMessage st message now now2 api).state.messages
      = st.messages ++ tail := by
  by_cases hg : ((jsTrim message).isEmpty || st.isLoading) = true
  · refine ⟨[], ?_⟩
    rw [sendMessage, if_pos hg]
    simp
  · cases api with
    | ok r =>
        exact ⟨[userMessage message now, assistantMessage r now2],
          by simp [sendMessage, hg]⟩
    | error e =>
        exact ⟨[userMessage message now, errorMessage e now2],
          by simp [sendMessage, hg]⟩

/-- Claim C9: a message that trims to the empty string is rejected —
state unchanged, no API call — so every user message entering the log
carries the trimmed, non-empty content. -/
theorem user_messages_have_nonempty_content (st : ChatState)
    (message now now2 : String) (api : Except ApiError ChatResponse) :
    ((jsTrim message).isEmpty = true →
      (sendMessage st message now now2 api).state = st ∧
      (sendMessage st message now now2 api).sent = none) ∧
    (∃ tail, (sendMessage st message now now2 api).state.messages
        = st.messages ++ tail ∧
      ∀ m ∈ tail, m.type = .user →
        m.content = jsTrim message ∧ m.content.isEmpty = false) := by
  constructor
  · intro h
    constructor <;> simp [sendMessage, h]
  · by_cases hg : ((jsTrim message).isEmpty || st.isLoading) = true
    · refine ⟨[], ?_, by simp⟩
      rw [sendMessage, if_pos hg]
      simp
    · have hg2 := hg
      simp only [Bool.or_eq_true, not_or, Bool.not_eq_true] at hg2
      obtain ⟨hm, _⟩ := hg2
      cases api with
      | ok r =>
          refine ⟨[userMessage message now, assistantMessage r now2],
            by simp [sendMessage, hg], ?_⟩
          intro m hmem ht
          simp only [List.mem_cons, List.not_mem_nil, or_false] at hmem
          rcases hmem with hmem | hmem
          · rw [hmem]
            exact ⟨rfl, hm⟩
          · rw [hmem] at ht
            cases ht
      | error e =>
          refine ⟨[userMessage message now, errorMessage e now2],
            by simp [sendMessage, hg], ?_⟩
          intro m hmem ht
          simp only [List.mem_cons, List.not_mem_nil, or_false] at hmem
          rcases hmem with hmem | hmem
          · rw [hmem]
            exact ⟨rfl, hm⟩
          · rw [hmem] at ht
            cases ht

/-- Witness for C9: a whitespace-only concrete message is a no-op, and a
real concrete message appends only a non-empty user message. -/
theorem user_messages_have_nonempty_content_witness :
    (jsTrim "   ").isEmpty = true ∧
    ((sendMessage ⟨[], false, none⟩ "   " "t0" "t1" (.error ⟨none⟩)).state
        = ⟨[], false, none⟩ ∧
     (sendMessage ⟨[], false, none⟩ "   " "t0" "t1" (.error ⟨none⟩)).sent
        = none) ∧
    (∃ tail, (sendMessage ⟨[], false, none⟩ " hi " "t0" "t1"
        (.error ⟨none⟩)).state.messages = [] ++ tail ∧
      ∀ m ∈ tail, m.type = .user →
        m.content = jsTrim " hi " ∧ m.content.isEmpty = false) :=
  ⟨by decide,
   (user_messages_have_nonempty_content ⟨[], false, none⟩ "   " "t0" "t1"
      (.error ⟨none⟩)).1 (by decide),
   (user_messages_have_nonempty_content ⟨[], false, none⟩ " hi " "t0" "t1"
      (.error ⟨none⟩)).2⟩

/-- Claim C10: `loadChatHistory` is a no-op when the session id is null,
and otherwise restores only the fields type, content, timestamp and
intent — attachments present in the server-side history are absent from
every restored message. -/
theorem loadChatHistory_restores_core_fields_only (st : ChatState)
    (hist : List StoredMessage) (api : Except ApiError (List StoredMessage)) :
    (st.sessionId = none → loadChatHistory st api = st) ∧
    (∀ s, st.sessionId = some s → s.isEmpty = false →
      (loadChatHistory st (.ok hist)).messages = hist.map formatMessage) ∧
    (∀ m ∈ hist.map formatMessage, m.products = none ∧ m.orders = none) ∧
    (∀ sm : StoredMessage,
      (formatMessage sm).type = sm.type ∧
      (formatMessage sm).content = sm.content ∧
      (formatMessage sm).timestamp = sm.timestamp ∧
      (formatMessage sm).intent = sm.intent) := by
  refine ⟨?_, ?_, ?_, ?_⟩
  · intro hs
    simp [loadChatHistory, jsFalsyStr, hs]
  · intro s hs hne
    simp [loadChatHistory, jsFalsyStr, hs, hne]
  · intro m hm
    simp at hm
    obtain ⟨sm, _, rfl⟩ := hm
    exact ⟨rfl, rfl⟩
  · intro sm
    exact ⟨rfl, rfl, rfl, rfl⟩

/-- Witness for C10: a null-session concrete call is a no-op, and a
concrete restore of a history entry carrying attachments drops them. -/
theorem loadChatHistory_restores_core_fields_only_witness :
    (loadChatHistory ⟨[], false, none⟩
        (.ok [⟨.assistant, "c", "t", some "general",
          some [sampleProduct 1], some [sampleOrder 1]⟩])
      = ⟨[], false, none⟩) ∧
    ((loadChatHistory ⟨[], false, some "s1"⟩
        (.ok [⟨.assistant, "c", "t", some "general",
          some [sampleProduct 1], some [sampleOrder 1]⟩])).messages
      = [⟨.assistant, "c", "t", some "general",
          some [sampleProduct 1], some [sampleOrder 1]⟩].map formatMessage) ∧
    (∀ m ∈ [(⟨.assistant, "c", "t", some "general",
        some [sampleProduct 1], some [sampleOrder 1]⟩ :
          StoredMessage)].map formatMessage,
      m.products = none ∧ m.orders = none) :=
  ⟨(loadChatHistory_restores_core_fields_only ⟨[], false, none⟩
      [⟨.assistant, "c", "t", some "general",
        some [sampleProduct 1], some [sampleOrder 1]⟩]
      (.ok [⟨.assistant, "c", "t", some "general",
        some [sampleProduct 1], some [sampleOrder 1]⟩])).1 rfl,
   ((loadChatHistory_restores_core_fields_only ⟨[], false, some "s1"⟩
      [⟨.assistant, "c", "t", some "general",
        some [sampleProduct 1], some [sampleOrder 1]⟩]
      (.ok [⟨.assistant, "c", "t", some "general",
        some [sampleProduct 1], some [sampleOrder 1]⟩])).2.1 "s1" rfl
      (by decide)),
   ((loadChatHistory_restores_core_fields_only ⟨[], false, some "s1"⟩
      [⟨.assistant, "c", "t", some "general",
        some [sampleProduct 1], some [sampleOrder 1]⟩]
      (.ok [⟨.assistant, "c", "t", some "general",
        some [sampleProduct 1], some [sampleOrder 1]⟩])).2.2.1)⟩

end FashionChat
